import Mathlib

/-!
Verification development for the walkability-analysis pipeline
(`GNN_Test1(Simple_GNN).ipynb`): geometry validation, per-neighborhood
subgraph construction with disk caching, and the rule-based walkability
scorer.

The embedding is shallow: each pandas/cudf table becomes a Lean list of
typed rows, machine floats become exact rationals (`ℚ`), and the external
geometry library (shapely) is abstracted as a record of predicate
functions (`GeoLib`), since its implementation is not part of the
repository.  Fallible operations (string-index parsing, positional row
lookup) return `Option` where the Python code would raise.
-/

/-- Abstraction of the external geometry library (shapely / cuspatial).
The pipeline only consumes these operations: planar buffering at a given
distance, the `within` and `intersects` boolean predicates, the geometry
type tag (`geom_type`), and extraction of the first/last coordinate of a
line as a point (`Point(geom.coords[0])` / `Point(geom.coords[-1])`). -/
structure GeoLib (G : Type) where
  buffer : G → ℚ → G
  within : G → G → Bool
  intersects : G → G → Bool
  geom_type : G → String
  startPoint : G → G
  endPoint : G → G

/-- One row of the neighborhoods table (`neighborhoods_gdf`), with the
columns read by `build_graph`: `LIE_NAME`, `2024population`, the three
land-use percentage columns, `ndvi_mean` (possibly missing, i.e. NaN in
the source data), and the two derived counts. -/
structure NeighborhoodRow (G : Type) where
  lie_name : String
  population : ℚ
  land_use_residential_percent : ℚ
  land_use_commercial_percent : ℚ
  land_use_education_percent : ℚ
  ndvi_mean : Option ℚ
  tree_count : ℚ
  transit_count : ℚ
  geometry : G

/-- One row of `buildings_gdf`: the `building` (type) and `area_m2` columns
plus the geometry. -/
structure BuildingRow (G : Type) where
  building : String
  area_m2 : ℚ
  geometry : G

/-- One row of `roads_gdf`: the `class` column (named `cls` here because
`class` is a Lean keyword), the derived `length_m` column, and the
geometry. -/
structure RoadRow (G : Type) where
  cls : String
  length_m : ℚ
  geometry : G

/-- One row of `trees_gdf` (only the geometry is consumed). -/
structure TreeRow (G : Type) where
  geometry : G

/-- One row of `transit_gdf`: the `class` column and the geometry. -/
structure TransitRow (G : Type) where
  cls : String
  geometry : G

/-- The dictionary returned by `load_and_prepare_data`, restricted to the
five layers consumed by `build_graph`. -/
structure CityData (G : Type) where
  neighborhoods : List (NeighborhoodRow G)
  buildings : List (BuildingRow G)
  roads : List (RoadRow G)
  trees : List (TreeRow G)
  transit : List (TransitRow G)

/-- A graph-node record, one variant per `type` tag appended to
`all_nodes` by `build_graph`.  The node table built from these dicts has
the union of all columns; representing it as a sum type makes each row
carry exactly the fields that its originating dict sets.  The road
variant's `road_class` / `length_m` are `Option`-valued because the source
obtains them by parsing a row index out of the identity string and
indexing the roads table; a failure there raises in Python and is
modelled as `none`. -/
inductive Node where
  | neighborhood (vertex : String) (lie_name : String) (population : ℚ)
      (land_use_residential_percent : ℚ) (land_use_commercial_percent : ℚ)
      (land_use_education_percent : ℚ) (ndvi_mean : Option ℚ)
      (tree_count : ℚ) (transit_count : ℚ)
  | building (vertex : String) (building_type : String) (area_m2 : ℚ)
  | road (vertex : String) (road_class : Option String) (length_m : Option ℚ)
  | tree (vertex : String)
  | transit (vertex : String) (cls : String)
  deriving Repr, DecidableEq

/-- The `type` column of the node table. -/
def Node.type : Node → String
  | .neighborhood .. => "neighborhood"
  | .building .. => "building"
  | .road .. => "road"
  | .tree .. => "tree"
  | .transit .. => "transit"

/-- The `vertex` column of the node table. -/
def Node.vertex : Node → String
  | .neighborhood v .. => v
  | .building v .. => v
  | .road v .. => v
  | .tree v => v
  | .transit v _ => v

/-- `validate_geometries`: keep only the rows whose geometry is valid
(`gdf[gdf.geometry.is_valid]`), then `reset_index(drop=True)`.  A data
frame is modelled as a list of (index, row) pairs; resetting the index
re-enumerates the surviving rows from 0.  Validity is an external
geometric predicate, passed in as a function. -/
def validate_geometries {α : Type} (valid : α → Bool) (gdf : List (ℕ × α)) : List (ℕ × α) :=
  let kept := gdf.filter fun p => valid p.2
  (kept.map Prod.snd).enum

/-- The per-row arithmetic of `compute_walkability_scores`, applied
element-wise by the source to the series of neighborhood rows:
`land_use_score`, `ndvi_score`, `tree_score`, `transit_score` and the
final upper-clipped sum.  `Series.clip(upper=u)` is `min · u`. -/
def walkability_row (residential commercial education ndvi tree_count transit_count : ℚ) : ℚ :=
  let land_use_score := (residential * 0.4 + commercial * 0.3 + education * 0.2) / 100
  let ndvi_score := ndvi * 0.5
  let tree_score := min (tree_count / 100) 1.0 * 0.2
  let transit_score := min (transit_count / 20) 1.0 * 0.2
  min (land_use_score + ndvi_score * 0.4 + tree_score + transit_score) 1.0

/-- The walkability value `compute_walkability_scores` assigns to one row:
on a neighborhood row it evaluates the score from that row's attributes,
with `ndvi_mean.fillna(0.0)` modelled by `Option.getD · 0`; the scorer
never evaluates it on any other row variant (the `0` there is never
used because the assignment is masked to neighborhood rows). -/
def Node.walkability_rule_value : Node → ℚ
  | .neighborhood _ _ _ residential commercial education ndvi tree_count transit_count =>
      walkability_row residential commercial education (ndvi.getD 0.0) tree_count transit_count
  | _ => 0

/-- A node table together with its optional `walkability_rule` column
(`none` models the column being absent from `nodes_df.columns`; when
present it is a list of values parallel to the rows). -/
structure NodesTable where
  rows : List Node
  walkability_rule : Option (List ℚ)
  deriving Repr, DecidableEq

/-- `compute_walkability_scores`: select the neighborhood rows; if there
are none, add the `walkability_rule` column with default `0.0` (when
absent) and return; otherwise initialize the column to `0.0` when absent
and assign the computed score to exactly the masked (neighborhood) rows,
index-aligned as pandas `.loc[mask, col] = series` does. -/
def compute_walkability_scores (nodes_df : NodesTable) : NodesTable :=
  let neighborhood_df := nodes_df.rows.filter fun n => n.type == "neighborhood"
  if neighborhood_df.length = 0 then
    match nodes_df.walkability_rule with
    | none => { nodes_df with walkability_rule := some (List.replicate nodes_df.rows.length 0.0) }
    | some _ => nodes_df
  else
    let col := nodes_df.walkability_rule.getD (List.replicate nodes_df.rows.length 0.0)
    let newcol := (nodes_df.rows.zip col).map fun p =>
      if p.1.type == "neighborhood" then p.1.walkability_rule_value else p.2
    { nodes_df with walkability_rule := some newcol }

/-- The buffer distance fixed by `build_graph` (`buffer_distance = 200`). -/
def buffer_distance : ℚ := 200

/-- `relevant_buildings = buildings_gdf[buildings_gdf.geometry.within(neigh_buffer)]`;
row indices (contiguous after validation) are carried along as pandas
keeps the original index under boolean selection. -/
def relevant_buildings {G : Type} (lib : GeoLib G) (buildings : List (BuildingRow G))
    (neigh_buffer : G) : List (ℕ × BuildingRow G) :=
  buildings.enum.filter fun p => lib.within p.2.geometry neigh_buffer

/-- `relevant_roads = roads_gdf[roads_gdf.geometry.intersects(neigh_buffer)]`. -/
def relevant_roads {G : Type} (lib : GeoLib G) (roads : List (RoadRow G))
    (neigh_buffer : G) : List (ℕ × RoadRow G) :=
  roads.enum.filter fun p => lib.intersects p.2.geometry neigh_buffer

/-- `relevant_trees = trees_gdf[trees_gdf.geometry.within(neigh_buffer)]`. -/
def relevant_trees {G : Type} (lib : GeoLib G) (trees : List (TreeRow G))
    (neigh_buffer : G) : List (ℕ × TreeRow G) :=
  trees.enum.filter fun p => lib.within p.2.geometry neigh_buffer

/-- `relevant_transit = transit_gdf[transit_gdf.geometry.within(neigh_buffer)]`. -/
def relevant_transit {G : Type} (lib : GeoLib G) (transit : List (TransitRow G))
    (neigh_buffer : G) : List (ℕ × TransitRow G) :=
  transit.enum.filter fun p => lib.within p.2.geometry neigh_buffer

/-- The `road_points` list: for each selected road whose geometry type is
exactly `'LineString'`, the two identity/point pairs
`(f"road_start_{r_idx}", Point(geom.coords[0]))` and
`(f"road_end_{r_idx}", Point(geom.coords[-1]))`; other geometry types
contribute nothing. -/
def road_points {G : Type} (lib : GeoLib G) (relevant : List (ℕ × RoadRow G)) :
    List (String × G) :=
  relevant.flatMap fun p =>
    if lib.geom_type p.2.geometry == "LineString" then
      [("road_start_" ++ toString p.1, lib.startPoint p.2.geometry),
       ("road_end_" ++ toString p.1, lib.endPoint p.2.geometry)]
    else []

/-- Construction of one road node from its identity string:
`r_idx = int(node_id.split('_')[2])`, then `road_class` and `length_m`
are looked up positionally (`.iloc[r_idx]`) in the full roads table.
Python's `split('_')` on the single-character separator is
`String.split (· == '_')`; the `int(...)` parse and the positional lookup
raise on failure in Python and are modelled as `none`. -/
def roadNode {G : Type} (roads : List (RoadRow G)) (node_id : String) : Node :=
  let r_idx := ((node_id.split fun c => c == '_')[2]?).bind String.toNat?
  Node.road node_id
    (r_idx.bind fun i => (roads[i]?).map RoadRow.cls)
    (r_idx.bind fun i => (roads[i]?).map RoadRow.length_m)

/-- The neighborhood node emitted first into `all_nodes`, with identity
`f"neighborhood_{lie_name}"` and the attribute columns copied from the
neighborhood row. -/
def neighborhoodNode {G : Type} (row : NeighborhoodRow G) : Node :=
  .neighborhood ("neighborhood_" ++ row.lie_name) row.lie_name row.population
    row.land_use_residential_percent row.land_use_commercial_percent
    row.land_use_education_percent row.ndvi_mean row.tree_count row.transit_count

/-- The `all_nodes` list assembled by one iteration of `build_graph`'s
per-neighborhood loop (the cache-miss path): the neighborhood node, then
building nodes, road endpoint nodes, tree nodes and transit nodes, in
source order. -/
def buildNodes {G : Type} (lib : GeoLib G) (data : CityData G) (row : NeighborhoodRow G) :
    List Node :=
  let neigh_buffer := lib.buffer row.geometry buffer_distance
  neighborhoodNode row ::
    ((relevant_buildings lib data.buildings neigh_buffer).map fun p =>
        Node.building ("building_" ++ toString p.1) p.2.building p.2.area_m2)
    ++ ((road_points lib (relevant_roads lib data.roads neigh_buffer)).map fun q =>
        roadNode data.roads q.1)
    ++ ((relevant_trees lib data.trees neigh_buffer).map fun p =>
        Node.tree ("tree_" ++ toString p.1))
    ++ ((relevant_transit lib data.transit neigh_buffer).map fun p =>
        Node.transit ("transit_" ++ toString p.1) p.2.cls)

/-- An edge-table row (`src`, `dst`); `build_graph` never creates any. -/
abbrev Edge := String × String

/-- The `subgraph_data` dict: node table plus edge table, where
`edges_df = cudf.DataFrame(all_edges) if all_edges else None`. -/
structure SubgraphData where
  nodes : List Node
  edges : Option (List Edge)
  deriving Repr, DecidableEq

/-- The subgraph cache directory: a map from `lie_name` to the pickled
`(nodes, edges)` pair, modelled as an association list.  Pickling and
unpickling round-trip, so a cache entry is stored and reloaded as the
value itself. -/
abbrev Cache := List (String × SubgraphData)

/-- One iteration of `build_graph`'s loop for a single neighborhood row:
if the cache file for `lie_name` exists, load and return it (the cache is
untouched); otherwise assemble `all_nodes` / `all_edges` (always empty),
pickle the result to the cache, and return it. -/
def buildOne {G : Type} (lib : GeoLib G) (data : CityData G) (cache : Cache)
    (row : NeighborhoodRow G) : SubgraphData × Cache :=
  match cache.lookup row.lie_name with
  | some sg => (sg, cache)
  | none =>
      let all_edges : List Edge := []
      let sg : SubgraphData :=
        { nodes := buildNodes lib data row
          edges := if all_edges.isEmpty then none else some all_edges }
      (sg, (row.lie_name, sg) :: cache)

/-- `build_graph` with the fallibility of the cache write made explicit:
the source performs `open(subgraph_path, 'wb')` / `pickle.dump` inside
the loop with no exception handler, so an I/O failure propagates out of
`build_graph` (to `main`'s catch-all), discarding the `subgraphs` dict
accumulated so far.  `write_ok` says whether writing the cache file for a
given `lie_name` succeeds. -/
def build_graph_fallible {G : Type} (lib : GeoLib G) (data : CityData G) (cache : Cache)
    (write_ok : String → Bool) : Except String (List (String × SubgraphData) × Cache) :=
  data.neighborhoods.foldlM
    (fun acc row =>
      match acc.2.lookup row.lie_name with
      | some sg => .ok (acc.1 ++ [(row.lie_name, sg)], acc.2)
      | none =>
          let sg : SubgraphData := { nodes := buildNodes lib data row, edges := none }
          if write_ok row.lie_name then
            .ok (acc.1 ++ [(row.lie_name, sg)], (row.lie_name, sg) :: acc.2)
          else
            .error ("IOError: could not write subgraph_" ++ row.lie_name ++ ".pkl"))
    ([], cache)

/-- Toy instantiation of the geometry library used to evaluate the
development on concrete inputs: a geometry is a natural number, buffering
adds 100, `within a b` is `a < b`, `intersects a b` is `a ≤ b`, and even
geometries are LineStrings. -/
def demoLib : GeoLib ℕ where
  buffer := fun g _ => g + 100
  within := fun a b => decide (a < b)
  intersects := fun a b => decide (a ≤ b)
  geom_type := fun g => if g % 2 = 0 then "LineString" else "MultiLineString"
  startPoint := id
  endPoint := id

/-- A concrete neighborhood row. -/
def demoRow : NeighborhoodRow ℕ where
  lie_name := "A"
  population := 1000
  land_use_residential_percent := 50
  land_use_commercial_percent := 20
  land_use_education_percent := 10
  ndvi_mean := some (1/2)
  tree_count := 10
  transit_count := 5
  geometry := 0

/-- A second concrete neighborhood row. -/
def demoRow2 : NeighborhoodRow ℕ :=
  { demoRow with lie_name := "B", geometry := 1 }

/-- A concrete building row lying outside every demo buffer. -/
def demoBuilding : BuildingRow ℕ where
  building := "house"
  area_m2 := 120
  geometry := 500

/-- A concrete LineString road row intersecting the demo buffers. -/
def demoRoad : RoadRow ℕ where
  cls := "residential"
  length_m := 35
  geometry := 2

/-- A concrete MultiLineString road row intersecting the demo buffers. -/
def demoRoad2 : RoadRow ℕ where
  cls := "path"
  length_m := 7
  geometry := 3

/-- Concrete city data: one building outside every buffer, one LineString
road and one MultiLineString road inside, one tree and one transit stop
inside. -/
def demoData : CityData ℕ where
  neighborhoods := [demoRow, demoRow2]
  buildings := [demoBuilding]
  roads := [demoRoad, demoRoad2]
  trees := [{ geometry := 50 }]
  transit := [{ cls := "bus_stop", geometry := 60 }]

/-- A concrete cached subgraph value, distinct from anything `buildNodes`
would produce, to make the cache short-circuit observable. -/
def demoSG : SubgraphData where
  nodes := [Node.tree "tree_99"]
  edges := none

/-- A concrete node table without a `walkability_rule` column. -/
def demoTable : NodesTable where
  rows := [neighborhoodNode demoRow, Node.tree "tree_0"]
  walkability_rule := none

/-- C1: the Rule-Based Scorer computes, for every neighborhood node with
attributes residential, commercial, education, ndvi (missing treated as
0.0), tree_count and transit_count, exactly the closed form
`min((0.4·residential + 0.3·commercial + 0.2·education)/100 + 0.4·(0.5·ndvi)
+ 0.2·min(tree_count/100, 1) + 0.2·min(transit_count/20, 1), 1.0)`; for
residential = 100 and all other inputs 0 the result is 0.4, and for zero
land-use percentages with ndvi = 1.0, tree_count = 200, transit_count = 40
the result is 0.6. -/
theorem scorer_closed_form (v ln : String)
    (pop residential commercial education tree_count transit_count : ℚ) (ndvi : Option ℚ) :
    Node.walkability_rule_value
        (.neighborhood v ln pop residential commercial education ndvi tree_count transit_count)
      = min ((0.4 * residential + 0.3 * commercial + 0.2 * education) / 100
          + 0.4 * (0.5 * ndvi.getD 0.0) + 0.2 * min (tree_count / 100) 1
          + 0.2 * min (transit_count / 20) 1) 1.0
    ∧ Node.walkability_rule_value (.neighborhood v ln pop 100 0 0 none 0 0) = 0.4
    ∧ Node.walkability_rule_value (.neighborhood v ln pop 0 0 0 (some 1.0) 200 40) = 0.6 := by
  refine ⟨?_, ?_, ?_⟩
  · simp only [Node.walkability_rule_value]
    unfold walkability_row
    ring_nf
  · simp only [Node.walkability_rule_value]
    unfold walkability_row
    norm_num [min_def]
  · simp only [Node.walkability_rule_value]
    unfold walkability_row
    norm_num [min_def]

/-- C4: the walkability score is monotone in `tree_count` while it is at
or below 100, and increasing it beyond 100 leaves the score unchanged. -/
theorem walkability_tree_monotone
    (residential commercial education ndvi transit_count t₁ t₂ : ℚ) :
    (t₁ ≤ t₂ → t₂ ≤ 100 →
      walkability_row residential commercial education ndvi t₁ transit_count ≤
        walkability_row residential commercial education ndvi t₂ transit_count)
    ∧ (100 ≤ t₁ → t₁ ≤ t₂ →
      walkability_row residential commercial education ndvi t₁ transit_count =
        walkability_row residential commercial education ndvi t₂ transit_count) := by
  constructor
  · intro h _
    unfold walkability_row
    have hm : min (t₁ / 100) (1.0 : ℚ) ≤ min (t₂ / 100) (1.0 : ℚ) :=
      min_le_min (by linarith) le_rfl
    apply min_le_min _ le_rfl
    nlinarith [hm]
  · intro h1 h2
    unfold walkability_row
    have e1 : min (t₁ / 100) (1.0 : ℚ) = 1.0 :=
      min_eq_right (by rw [le_div_iff₀ (by norm_num)]; linarith)
    have e2 : min (t₂ / 100) (1.0 : ℚ) = 1.0 :=
      min_eq_right (by rw [le_div_iff₀ (by norm_num)]; linarith)
    rw [e1, e2]

/-- Witness for C4 at tree counts 10 ≤ 20 ≤ 100 and 100 ≤ 150 ≤ 200. -/
theorem walkability_tree_monotone_witness :
    (walkability_row 0 0 0 0 10 0 ≤ walkability_row 0 0 0 0 20 0)
    ∧ walkability_row 0 0 0 0 150 0 = walkability_row 0 0 0 0 200 0 :=
  ⟨(walkability_tree_monotone 0 0 0 0 0 10 20).1 (by norm_num) (by norm_num),
   (walkability_tree_monotone 0 0 0 0 0 150 200).2 (by norm_num) (by norm_num)⟩

/-- C5: the Geometry Validator returns only rows whose geometry is valid,
its output is no longer than its input, and the output is reindexed to
the contiguous 0-based range; it is a total function (invalid rows are
silently dropped) and, being pure, leaves its input unmodified. -/
theorem validate_geometries_spec {α : Type} (valid : α → Bool) (gdf : List (ℕ × α)) :
    (∀ p ∈ validate_geometries valid gdf, valid p.2 = true)
    ∧ (validate_geometries valid gdf).length ≤ gdf.length
    ∧ (validate_geometries valid gdf).map Prod.fst =
        List.range (validate_geometries valid gdf).length := by
  refine ⟨?_, ?_, ?_⟩
  · intro p hp
    unfold validate_geometries at hp
    rw [List.enum_eq_zip_range] at hp
    have h2 := (List.of_mem_zip hp).2
    obtain ⟨q, hq, hq2⟩ := List.mem_map.mp h2
    have h3 := List.of_mem_filter hq
    rwa [hq2] at h3
  · unfold validate_geometries
    simp only [List.enum_length, List.length_map]
    exact List.length_filter_le _ _
  · unfold validate_geometries
    simp only [List.enum_map_fst, List.enum_length, List.length_map]

/-- Witness for C5 on a concrete collection with one invalid row. -/
theorem validate_geometries_spec_witness :
    (∀ p ∈ validate_geometries (fun n : ℕ => n % 2 == 0) [(0, 4), (1, 3), (2, 8)],
        (fun n : ℕ => n % 2 == 0) p.2 = true)
    ∧ (validate_geometries (fun n : ℕ => n % 2 == 0) [(0, 4), (1, 3), (2, 8)]).length ≤
        ([(0, 4), (1, 3), (2, 8)] : List (ℕ × ℕ)).length
    ∧ (validate_geometries (fun n : ℕ => n % 2 == 0) [(0, 4), (1, 3), (2, 8)]).map Prod.fst =
        List.range (validate_geometries (fun n : ℕ => n % 2 == 0) [(0, 4), (1, 3), (2, 8)]).length :=
  validate_geometries_spec (fun n : ℕ => n % 2 == 0) [(0, 4), (1, 3), (2, 8)]

/-- C9: on a node table without a `walkability_rule` column, the scorer
returns the rows unchanged (no other column is modified) and adds the
`walkability_rule` column carrying the computed score on exactly the rows
tagged 'neighborhood' and the default 0.0 on every other row; when the
table has no neighborhood row this makes every entry of the added column
0.0 and no score computation occurs. -/
theorem scorer_frame (t : NodesTable) (h : t.walkability_rule = none) :
    (compute_walkability_scores t).rows = t.rows
    ∧ (compute_walkability_scores t).walkability_rule =
        some (t.rows.map fun n =>
          if n.type == "neighborhood" then n.walkability_rule_value else 0.0) := by
  have hzip : ∀ rs : List Node,
      ((rs.zip (List.replicate rs.length (0.0 : ℚ))).map fun p =>
          if p.1.type == "neighborhood" then p.1.walkability_rule_value else p.2)
        = rs.map fun n =>
          if n.type == "neighborhood" then n.walkability_rule_value else 0.0 := by
    intro rs
    induction rs with
    | nil => rfl
    | cons a l ih =>
        simp only [List.length_cons, List.replicate_succ, List.zip_cons_cons, List.map_cons, ih]
  unfold compute_walkability_scores
  rw [h]
  dsimp only
  by_cases hemp : (List.filter (fun n => n.type == "neighborhood") t.rows).length = 0
  · rw [if_pos hemp]
    refine ⟨rfl, ?_⟩
    dsimp only
    congr 1
    have hall := List.filter_eq_nil_iff.mp (List.length_eq_zero.mp hemp)
    symm
    calc t.rows.map (fun n =>
            if n.type == "neighborhood" then n.walkability_rule_value else (0.0 : ℚ))
        = t.rows.map fun _ => (0.0 : ℚ) := by
          apply List.map_congr_left
          intro n hn
          have hb := hall n hn
          simp only [Bool.not_eq_true] at hb
          rw [hb]
          simp
      _ = List.replicate t.rows.length 0.0 := List.map_const' _ _
  · rw [if_neg hemp]
    refine ⟨rfl, ?_⟩
    simp only [Option.getD_none]
    congr 1
    exact hzip t.rows

/-- Witness for C9 on a concrete two-row table without the column. -/
theorem scorer_frame_witness :
    (compute_walkability_scores demoTable).rows = demoTable.rows
    ∧ (compute_walkability_scores demoTable).walkability_rule =
        some (demoTable.rows.map fun n =>
          if n.type == "neighborhood" then n.walkability_rule_value else 0.0) :=
  scorer_frame demoTable rfl

/-- C2: the Subgraph Builder is idempotent per neighborhood identity:
when a cache entry exists for the row's `lie_name`, building returns the
deserialized cached pair with the cache untouched (no recomputation), and
a second build for the same identity on the cache left by the first build
returns exactly the first build's node and edge tables. -/
theorem buildOne_idempotent {G : Type} (lib : GeoLib G) (data : CityData G) (cache : Cache)
    (row : NeighborhoodRow G) :
    (∀ sg, cache.lookup row.lie_name = some sg → buildOne lib data cache row = (sg, cache))
    ∧ buildOne lib data (buildOne lib data cache row).2 row = buildOne lib data cache row := by
  constructor
  · intro sg hsg
    unfold buildOne
    rw [hsg]
  · cases hc : cache.lookup row.lie_name with
    | some sg =>
        have h1 : buildOne lib data cache row = (sg, cache) := by
          unfold buildOne
          rw [hc]
        rw [h1]
        exact h1
    | none =>
        have h1 : buildOne lib data cache row
            = ({ nodes := buildNodes lib data row, edges := none },
               (row.lie_name, { nodes := buildNodes lib data row, edges := none }) :: cache) := by
          unfold buildOne
          rw [hc]
          rfl
        rw [h1]
        unfold buildOne
        simp [List.lookup]


/-- Witness for C2: a cache hit returns the stored subgraph unchanged,
and rebuilding after a fresh build reproduces the same tables. -/
theorem buildOne_idempotent_witness :
    buildOne demoLib demoData [("A", demoSG)] demoRow = (demoSG, [("A", demoSG)])
    ∧ buildOne demoLib demoData (buildOne demoLib demoData [] demoRow).2 demoRow
        = buildOne demoLib demoData [] demoRow :=
  ⟨(buildOne_idempotent demoLib demoData [("A", demoSG)] demoRow).1 demoSG rfl,
   (buildOne_idempotent demoLib demoData [] demoRow).2⟩

/-- C6: every freshly constructed subgraph (cache miss) contains exactly
one node tagged 'neighborhood', and that node is the first row (index 0)
of the node table. -/
theorem subgraph_neighborhood_first {G : Type} (lib : GeoLib G) (data : CityData G)
    (cache : Cache) (row : NeighborhoodRow G) (h : cache.lookup row.lie_name = none) :
    ((buildOne lib data cache row).1.nodes.countP fun n => n.type == "neighborhood") = 1
    ∧ (buildOne lib data cache row).1.nodes.head? = some (neighborhoodNode row) := by
  have hb : (buildOne lib data cache row).1.nodes = buildNodes lib data row := by
    unfold buildOne
    rw [h]
  rw [hb]
  constructor
  · unfold buildNodes
    dsimp only
    simp only [List.countP_append]
    rw [List.countP_cons_of_pos _ _ (by rfl)]
    have hzero : ∀ l : List Node, (∀ n ∈ l, n.type ≠ "neighborhood") →
        List.countP (fun n => n.type == "neighborhood") l = 0 := by
      intro l hl
      rw [List.countP_eq_zero]
      intro a ha
      simp [hl a ha]
    rw [hzero _ (by rintro n hn; obtain ⟨q, _, rfl⟩ := List.mem_map.mp hn; simp [Node.type]),
      hzero _ (by rintro n hn; obtain ⟨q, _, rfl⟩ := List.mem_map.mp hn; simp [roadNode, Node.type]),
      hzero _ (by rintro n hn; obtain ⟨q, _, rfl⟩ := List.mem_map.mp hn; simp [Node.type]),
      hzero _ (by rintro n hn; obtain ⟨q, _, rfl⟩ := List.mem_map.mp hn; simp [Node.type])]
  · unfold buildNodes
    dsimp only
    rfl

/-- Witness for C6 on the concrete demo data with an empty cache. -/
theorem subgraph_neighborhood_first_witness :
    ((buildOne demoLib demoData [] demoRow).1.nodes.countP fun n =>
        n.type == "neighborhood") = 1
    ∧ (buildOne demoLib demoData [] demoRow).1.nodes.head? = some (neighborhoodNode demoRow) :=
  subgraph_neighborhood_first demoLib demoData [] demoRow rfl

/-- C7 evidence (the claim describes intended behavior the code does not
implement): when writing the cache file fails for the very first
neighborhood, `build_graph` raises out of the per-neighborhood loop —
the run's in-memory subgraphs are discarded (no partial result is
returned), no warning-and-continue happens, and the second neighborhood
is never processed. -/
theorem cache_write_error_aborts_run :
    build_graph_fallible demoLib demoData [] (fun _ => false)
      = .error "IOError: could not write subgraph_A.pkl" := by
  rfl

/-- Characters produced by `Nat.digitChar` on a decimal digit are ASCII
digits. -/
theorem digitChar_isDigit (d : ℕ) (h : d < 10) : (Nat.digitChar d).isDigit = true := by
  interval_cases d <;> decide

/-- Subtracting the code of '0' from a decimal digit character recovers
the digit. -/
theorem digitChar_toNat (d : ℕ) (h : d < 10) : (Nat.digitChar d).toNat - '0'.toNat = d := by
  interval_cases d <;> decide

/-- The fuel-based `Nat.toDigitsCore` computes the reversed decimal digit
characters, provided the fuel exceeds the number. -/
theorem toDigitsCore_eq_digits (n : ℕ) : ∀ (fuel : ℕ) (ds : List Char), n < fuel →
    Nat.toDigitsCore 10 fuel n ds
      = (if n = 0 then ['0'] else ((Nat.digits 10 n).map Nat.digitChar).reverse) ++ ds := by
  induction n using Nat.strong_induction_on with
  | _ n ih =>
    intro fuel ds hfuel
    match fuel with
    | 0 => omega
    | f + 1 =>
      have step : Nat.toDigitsCore 10 (f + 1) n ds
          = if n / 10 = 0 then Nat.digitChar (n % 10) :: ds
            else Nat.toDigitsCore 10 f (n / 10) (Nat.digitChar (n % 10) :: ds) := rfl
      rw [step]
      by_cases h0 : n / 10 = 0
      · rw [if_pos h0]
        by_cases hz : n = 0
        · subst hz
          simp
          decide
        · rw [if_neg hz]
          have hlt : n < 10 := by omega
          rw [Nat.digits_def' (by norm_num : (1 : ℕ) < 10) (Nat.pos_of_ne_zero hz), h0]
          simp [Nat.mod_eq_of_lt hlt]
      · rw [if_neg h0]
        have hn0 : n ≠ 0 := by omega
        have hlt : n / 10 < n := Nat.div_lt_self (Nat.pos_of_ne_zero hn0) (by norm_num)
        have hf : n / 10 < f := by omega
        rw [ih (n / 10) hlt f (Nat.digitChar (n % 10) :: ds) hf]
        rw [if_neg h0, if_neg hn0]
        rw [Nat.digits_def' (by norm_num : (1 : ℕ) < 10) (Nat.pos_of_ne_zero hn0)]
        simp [List.append_assoc]

/-- The characters of `Nat.repr`. -/
theorem repr_data (n : ℕ) :
    (Nat.repr n).data
      = if n = 0 then ['0'] else ((Nat.digits 10 n).map Nat.digitChar).reverse := by
  have h := toDigitsCore_eq_digits n (n + 1) [] (Nat.lt_succ_self n)
  simpa [Nat.repr, Nat.toDigits, List.asString] using h

/-- Every character of a printed natural number is an ASCII digit. -/
theorem repr_all_isDigit (n : ℕ) : ∀ c ∈ (Nat.repr n).data, c.isDigit = true := by
  intro c hc
  rw [repr_data] at hc
  by_cases h0 : n = 0
  · rw [if_pos h0] at hc
    simp at hc
    subst hc
    decide
  · rw [if_neg h0] at hc
    rw [List.mem_reverse] at hc
    obtain ⟨d, hd, rfl⟩ := List.mem_map.mp hc
    exact digitChar_isDigit d (Nat.digits_lt_base (by norm_num) hd)

/-- Folding the decimal-digit accumulator over a printed number recovers
the number. -/
theorem foldl_digits (n : ℕ) : ∀ a : ℕ,
    (((Nat.digits 10 n).map Nat.digitChar).reverse).foldl
        (fun m c => m * 10 + (c.toNat - '0'.toNat)) a
      = a * 10 ^ (Nat.digits 10 n).length + n := by
  induction n using Nat.strong_induction_on with
  | _ n ih =>
    intro a
    by_cases h0 : n = 0
    · subst h0
      simp
    · rw [Nat.digits_def' (by norm_num : (1 : ℕ) < 10) (Nat.pos_of_ne_zero h0)]
      simp only [List.map_cons, List.reverse_cons, List.foldl_append, List.length_cons]
      rw [ih (n / 10) (Nat.div_lt_self (Nat.pos_of_ne_zero h0) (by norm_num)) a]
      simp only [List.foldl_cons, List.foldl_nil]
      rw [digitChar_toNat (n % 10) (Nat.mod_lt n (by norm_num))]
      have key : n / 10 * 10 + n % 10 = n := by omega
      calc (a * 10 ^ (Nat.digits 10 (n / 10)).length + n / 10) * 10 + n % 10
          = a * (10 ^ (Nat.digits 10 (n / 10)).length * 10) + (n / 10 * 10 + n % 10) := by ring
        _ = a * 10 ^ ((Nat.digits 10 (n / 10)).length + 1) + n := by rw [pow_succ, key]

/-- `String.toNat?` inverts `Nat.repr` (and hence `toString` on ℕ). -/
theorem toNat?_repr (n : ℕ) : String.toNat? (Nat.repr n) = some n := by
  have hne : (Nat.repr n).data ≠ [] := by
    rw [repr_data]
    split
    · simp
    · simp [Nat.digits_ne_nil_iff_ne_zero, *]
  have hnat : (Nat.repr n).isNat = true := by
    unfold String.isNat
    rw [Bool.and_eq_true]
    constructor
    · rw [Bool.not_eq_true']
      rw [Bool.eq_false_iff]
      intro h
      exact hne (by rw [(String.isEmpty_iff _).mp h])
    · rw [String.all_eq]
      exact List.all_eq_true.mpr fun c hc => repr_all_isDigit n c hc
  unfold String.toNat?
  rw [if_pos hnat]
  congr 1
  rw [String.foldl_eq]
  rw [repr_data]
  by_cases h0 : n = 0
  · subst h0
    simp
  · rw [if_neg h0]
    rw [foldl_digits n 0]
    simp

/-- Decimal printing of naturals is injective. -/
theorem repr_injective (a b : ℕ) (h : Nat.repr a = Nat.repr b) : a = b := by
  have h2 := congrArg String.toNat? h
  rw [toNat?_repr, toNat?_repr] at h2
  exact Option.some_injective _ h2

/-- A printed natural number contains no underscore. -/
theorem repr_no_underscore (n : ℕ) : ∀ c ∈ (Nat.repr n).data, (c == '_') = false := by
  intro c hc
  have hd := repr_all_isDigit n c hc
  rw [beq_eq_false_iff_ne]
  intro he
  subst he
  exact absurd hd (by decide)

/-- Splitting `road_start_<t>` on underscores, for `t` free of
underscores, yields exactly the three segments. -/
theorem split_road_start (t : String) (ht : ∀ c ∈ t.data, (c == '_') = false) :
    ("road_start_" ++ t).split (fun c => c == '_') = ["road", "start", t] := by
  rw [String.split_of_valid]
  have h1 : ("road_start_" ++ t).data
      = ['r', 'o', 'a', 'd'] ++ '_' :: (['s', 't', 'a', 'r', 't'] ++ '_' :: t.data) := by
    rw [String.data_append]
    rfl
  rw [h1]
  rw [List.splitOnP_first _ _ (by decide) '_' (by decide)]
  rw [List.splitOnP_first _ _ (by decide) '_' (by decide)]
  rw [List.splitOnP_eq_single _ _ (by intro x hx; simp [ht x hx])]
  simp only [List.map_cons, List.map_nil]

/-- Splitting `road_end_<t>` on underscores, for `t` free of underscores,
yields exactly the three segments. -/
theorem split_road_end (t : String) (ht : ∀ c ∈ t.data, (c == '_') = false) :
    ("road_end_" ++ t).split (fun c => c == '_') = ["road", "end", t] := by
  rw [String.split_of_valid]
  have h1 : ("road_end_" ++ t).data
      = ['r', 'o', 'a', 'd'] ++ '_' :: (['e', 'n', 'd'] ++ '_' :: t.data) := by
    rw [String.data_append]
    rfl
  rw [h1]
  rw [List.splitOnP_first _ _ (by decide) '_' (by decide)]
  rw [List.splitOnP_first _ _ (by decide) '_' (by decide)]
  rw [List.splitOnP_eq_single _ _ (by intro x hx; simp [ht x hx])]
  simp only [List.map_cons, List.map_nil]

/-- Two string concatenations differ when their left parts differ at some
character position. -/
theorem append_ne_of_getElem_ne (a b s t : String) (i : ℕ) (c d : Char)
    (hc : a.data[i]? = some c) (hd : b.data[i]? = some d) (hne : c ≠ d) :
    a ++ s ≠ b ++ t := by
  intro he
  have h2 := congrArg String.data he
  rw [String.data_append, String.data_append] at h2
  have ha : i < a.data.length := by
    by_contra hlt
    push_neg at hlt
    rw [List.getElem?_eq_none hlt] at hc
    exact Option.noConfusion hc
  have hb : i < b.data.length := by
    by_contra hlt
    push_neg at hlt
    rw [List.getElem?_eq_none hlt] at hd
    exact Option.noConfusion hd
  have h3 := congrArg (fun l => l[i]?) h2
  simp only at h3
  rw [List.getElem?_append_left ha, List.getElem?_append_left hb, hc, hd] at h3
  exact hne (Option.some_injective _ h3)

/-- Concatenations of a common prefix with printed naturals are equal only
for equal naturals. -/
theorem append_left_cancel_toString (pre : String) (a b : ℕ)
    (h : pre ++ toString a = pre ++ toString b) : a = b := by
  have h2 := congrArg String.data h
  rw [String.data_append, String.data_append] at h2
  have h3 := List.append_cancel_left h2
  exact repr_injective a b (String.ext h3)

/-- Exhaustive description of the nodes emitted by one fresh subgraph
construction: the neighborhood node, a building node per selected
building, two endpoint nodes per selected LineString road, a tree node
per selected tree, and a transit node per selected transit stop. -/
theorem mem_buildNodes_cases {G : Type} (lib : GeoLib G) (data : CityData G)
    (row : NeighborhoodRow G) (n : Node) (hn : n ∈ buildNodes lib data row) :
    n = neighborhoodNode row
    ∨ (∃ p ∈ relevant_buildings lib data.buildings (lib.buffer row.geometry buffer_distance),
        n = Node.building ("building_" ++ toString p.1) p.2.building p.2.area_m2)
    ∨ (∃ p ∈ relevant_roads lib data.roads (lib.buffer row.geometry buffer_distance),
        (lib.geom_type p.2.geometry == "LineString") = true
        ∧ (n = roadNode data.roads ("road_start_" ++ toString p.1)
            ∨ n = roadNode data.roads ("road_end_" ++ toString p.1)))
    ∨ (∃ p ∈ relevant_trees lib data.trees (lib.buffer row.geometry buffer_distance),
        n = Node.tree ("tree_" ++ toString p.1))
    ∨ (∃ p ∈ relevant_transit lib data.transit (lib.buffer row.geometry buffer_distance),
        n = Node.transit ("transit_" ++ toString p.1) p.2.cls) := by
  unfold buildNodes at hn
  dsimp only at hn
  rcases List.mem_append.mp hn with h1 | hD
  · rcases List.mem_append.mp h1 with h2 | hC
    · rcases List.mem_append.mp h2 with h3 | hB
      · rcases List.mem_cons.mp h3 with h0 | hA
        · exact Or.inl h0
        · obtain ⟨p, hp, rfl⟩ := List.mem_map.mp hA
          exact Or.inr (Or.inl ⟨p, hp, rfl⟩)
      · obtain ⟨q, hq, rfl⟩ := List.mem_map.mp hB
        unfold road_points at hq
        obtain ⟨p, hp, hq2⟩ := List.mem_flatMap.mp hq
        by_cases hls : (lib.geom_type p.2.geometry == "LineString") = true
        · rw [if_pos hls] at hq2
          rcases List.mem_cons.mp hq2 with rfl | hq3
          · exact Or.inr (Or.inr (Or.inl ⟨p, hp, hls, Or.inl rfl⟩))
          · rcases List.mem_cons.mp hq3 with rfl | hq4
            · exact Or.inr (Or.inr (Or.inl ⟨p, hp, hls, Or.inr rfl⟩))
            · exact absurd hq4 (List.not_mem_nil _)
        · rw [if_neg hls] at hq2
          exact absurd hq2 (List.not_mem_nil _)
    · obtain ⟨p, hp, rfl⟩ := List.mem_map.mp hC
      exact Or.inr (Or.inr (Or.inr (Or.inl ⟨p, hp, rfl⟩)))
  · obtain ⟨p, hp, rfl⟩ := List.mem_map.mp hD
    exact Or.inr (Or.inr (Or.inr (Or.inr ⟨p, hp, rfl⟩)))

/-- C8: road endpoint identity encoding round-trips.  For every selected
LineString road at row index j, the two emitted node identities are
`road_start_j` and `road_end_j`; splitting either identity on `_` puts
the printed index in the third segment, parsing it recovers j exactly,
and the two emitted nodes carry the `class` and `length_m` of road row j. -/
theorem road_identity_roundtrip {G : Type} (lib : GeoLib G) (data : CityData G)
    (row : NeighborhoodRow G) (j : ℕ) (r : RoadRow G)
    (hr : data.roads[j]? = some r)
    (hin : lib.intersects r.geometry (lib.buffer row.geometry buffer_distance) = true)
    (hls : lib.geom_type r.geometry = "LineString") :
    (("road_start_" ++ toString j).split fun c => c == '_')[2]? = some (toString j)
    ∧ (("road_end_" ++ toString j).split fun c => c == '_')[2]? = some (toString j)
    ∧ (toString j).toNat? = some j
    ∧ Node.road ("road_start_" ++ toString j) (some r.cls) (some r.length_m)
        ∈ buildNodes lib data row
    ∧ Node.road ("road_end_" ++ toString j) (some r.cls) (some r.length_m)
        ∈ buildNodes lib data row := by
  have htu : ∀ c ∈ (toString j).data, (c == '_') = false := repr_no_underscore j
  have hsplit1 := split_road_start (toString j) htu
  have hsplit2 := split_road_end (toString j) htu
  have hparse : (toString j).toNat? = some j := toNat?_repr j
  have hmem : (j, r) ∈ relevant_roads lib data.roads (lib.buffer row.geometry buffer_distance) := by
    unfold relevant_roads
    rw [List.mem_filter]
    exact ⟨List.mem_enum_iff_getElem?.mpr hr, by rw [hin]⟩
  have hnode1 : roadNode data.roads ("road_start_" ++ toString j)
      = Node.road ("road_start_" ++ toString j) (some r.cls) (some r.length_m) := by
    simp [roadNode, hsplit1, hparse, hr]
  have hnode2 : roadNode data.roads ("road_end_" ++ toString j)
      = Node.road ("road_end_" ++ toString j) (some r.cls) (some r.length_m) := by
    simp [roadNode, hsplit2, hparse, hr]
  have hq1 : ("road_start_" ++ toString j, lib.startPoint r.geometry)
      ∈ road_points lib
          (relevant_roads lib data.roads (lib.buffer row.geometry buffer_distance)) := by
    unfold road_points
    rw [List.mem_flatMap]
    exact ⟨(j, r), hmem, by simp [hls]⟩
  have hq2 : ("road_end_" ++ toString j, lib.endPoint r.geometry)
      ∈ road_points lib
          (relevant_roads lib data.roads (lib.buffer row.geometry buffer_distance)) := by
    unfold road_points
    rw [List.mem_flatMap]
    exact ⟨(j, r), hmem, by simp [hls]⟩
  refine ⟨by rw [hsplit1]; rfl, by rw [hsplit2]; rfl, hparse, ?_, ?_⟩
  · unfold buildNodes
    dsimp only
    apply List.mem_append_left
    apply List.mem_append_left
    apply List.mem_append_right
    exact List.mem_map.mpr
      ⟨("road_start_" ++ toString j, lib.startPoint r.geometry), hq1, hnode1⟩
  · unfold buildNodes
    dsimp only
    apply List.mem_append_left
    apply List.mem_append_left
    apply List.mem_append_right
    exact List.mem_map.mpr
      ⟨("road_end_" ++ toString j, lib.endPoint r.geometry), hq2, hnode2⟩

/-- Witness for C8 on the demo data at road row 0 (a LineString). -/
theorem road_identity_roundtrip_witness :
    (("road_start_" ++ toString 0).split fun c => c == '_')[2]? = some (toString 0)
    ∧ (("road_end_" ++ toString 0).split fun c => c == '_')[2]? = some (toString 0)
    ∧ (toString 0).toNat? = some 0
    ∧ Node.road ("road_start_" ++ toString 0) (some demoRoad.cls) (some demoRoad.length_m)
        ∈ buildNodes demoLib demoData demoRow
    ∧ Node.road ("road_end_" ++ toString 0) (some demoRoad.cls) (some demoRoad.length_m)
        ∈ buildNodes demoLib demoData demoRow :=
  road_identity_roundtrip demoLib demoData demoRow 0 demoRoad rfl rfl rfl

/-- C3: spatial selection is evaluated against the planar buffer of the
neighborhood geometry at the fixed distance 200 (`buffer_distance`),
via `within` for buildings, trees and transit and `intersects` for
roads.  A building whose `within` test against the buffer is false — as
it is, under shapely semantics, both for a building entirely outside the
buffer and for one merely touching the boundary without being contained —
never appears as a node in the subgraph, while a road whose `intersects`
test is true — as it is for a road merely crossing the buffer boundary —
is selected. -/
theorem buffer_selection {G : Type} (lib : GeoLib G) (data : CityData G)
    (row : NeighborhoodRow G) (i j : ℕ) (b : BuildingRow G) (r : RoadRow G)
    (hbi : data.buildings[i]? = some b)
    (hbout : lib.within b.geometry (lib.buffer row.geometry buffer_distance) = false)
    (hrj : data.roads[j]? = some r)
    (hrin : lib.intersects r.geometry (lib.buffer row.geometry buffer_distance) = true) :
    (∀ n ∈ buildNodes lib data row, n.vertex ≠ "building_" ++ toString i)
    ∧ (j, r) ∈ relevant_roads lib data.roads (lib.buffer row.geometry buffer_distance) := by
  constructor
  · intro n hn
    rcases mem_buildNodes_cases lib data row n hn with
      h0 | ⟨p, hp, rfl⟩ | ⟨p, hp, hls, hq | hq⟩ | ⟨p, hp, rfl⟩ | ⟨p, hp, rfl⟩
    · subst h0
      exact append_ne_of_getElem_ne "neighborhood_" "building_" row.lie_name (toString i)
        0 'n' 'b' rfl rfl (by decide)
    · intro heq
      have hvertex : "building_" ++ toString p.1 = "building_" ++ toString i := heq
      have hpi := append_left_cancel_toString "building_" p.1 i hvertex
      unfold relevant_buildings at hp
      have hfp := List.mem_filter.mp hp
      have hget : data.buildings[p.1]? = some p.2 := List.mem_enum_iff_getElem?.mp hfp.1
      rw [hpi, hbi] at hget
      have hpb : p.2 = b := (Option.some_injective _ hget).symm
      have hwithin : lib.within p.2.geometry (lib.buffer row.geometry buffer_distance) = true :=
        hfp.2
      rw [hpb, hbout] at hwithin
      exact Bool.noConfusion hwithin
    · subst hq
      exact append_ne_of_getElem_ne "road_start_" "building_" (toString p.1) (toString i)
        0 'r' 'b' rfl rfl (by decide)
    · subst hq
      exact append_ne_of_getElem_ne "road_end_" "building_" (toString p.1) (toString i)
        0 'r' 'b' rfl rfl (by decide)
    · exact append_ne_of_getElem_ne "tree_" "building_" (toString p.1) (toString i)
        0 't' 'b' rfl rfl (by decide)
    · exact append_ne_of_getElem_ne "transit_" "building_" (toString p.1) (toString i)
        0 't' 'b' rfl rfl (by decide)
  · unfold relevant_roads
    rw [List.mem_filter]
    exact ⟨List.mem_enum_iff_getElem?.mpr hrj, by rw [hrin]⟩

/-- Witness for C3: on the demo data, the building at row 0 (outside the
buffer) yields no node, and the LineString road at row 0 (intersecting
the buffer) is selected. -/
theorem buffer_selection_witness :
    (∀ n ∈ buildNodes demoLib demoData demoRow, n.vertex ≠ "building_" ++ toString 0)
    ∧ (0, demoRoad) ∈ relevant_roads demoLib demoData.roads
        (demoLib.buffer demoRow.geometry buffer_distance) :=
  buffer_selection demoLib demoData demoRow 0 0 demoBuilding demoRoad rfl rfl rfl rfl

/-- C10: a selected road whose geometry type is not exactly `LineString`
contributes no road endpoint node at all: no node of the subgraph carries
the identity `road_start_j` or `road_end_j` for such a road row j. -/
theorem non_linestring_road_no_nodes {G : Type} (lib : GeoLib G) (data : CityData G)
    (row : NeighborhoodRow G) (j : ℕ) (r : RoadRow G)
    (hrj : data.roads[j]? = some r)
    (hnl : lib.geom_type r.geometry ≠ "LineString") :
    ∀ n ∈ buildNodes lib data row,
      n.vertex ≠ "road_start_" ++ toString j ∧ n.vertex ≠ "road_end_" ++ toString j := by
  have hne : ∀ p : ℕ × RoadRow G,
      p ∈ relevant_roads lib data.roads (lib.buffer row.geometry buffer_distance) →
      (lib.geom_type p.2.geometry == "LineString") = true → p.1 ≠ j := by
    intro p hp hls heq
    unfold relevant_roads at hp
    have hget : data.roads[p.1]? = some p.2 :=
      List.mem_enum_iff_getElem?.mp (List.mem_filter.mp hp).1
    rw [heq, hrj] at hget
    have hpr : p.2 = r := (Option.some_injective _ hget).symm
    rw [hpr] at hls
    exact hnl (by simpa using hls)
  intro n hn
  rcases mem_buildNodes_cases lib data row n hn with
    h0 | ⟨p, hp, rfl⟩ | ⟨p, hp, hls, hq | hq⟩ | ⟨p, hp, rfl⟩ | ⟨p, hp, rfl⟩
  · subst h0
    exact ⟨append_ne_of_getElem_ne "neighborhood_" "road_start_" row.lie_name (toString j)
        0 'n' 'r' rfl rfl (by decide),
      append_ne_of_getElem_ne "neighborhood_" "road_end_" row.lie_name (toString j)
        0 'n' 'r' rfl rfl (by decide)⟩
  · exact ⟨append_ne_of_getElem_ne "building_" "road_start_" (toString p.1) (toString j)
        0 'b' 'r' rfl rfl (by decide),
      append_ne_of_getElem_ne "building_" "road_end_" (toString p.1) (toString j)
        0 'b' 'r' rfl rfl (by decide)⟩
  · subst hq
    constructor
    · intro heq
      exact hne p hp hls (append_left_cancel_toString "road_start_" p.1 j heq)
    · intro heq
      exact append_ne_of_getElem_ne "road_start_" "road_end_" (toString p.1) (toString j)
        5 's' 'e' rfl rfl (by decide) heq
  · subst hq
    constructor
    · intro heq
      exact append_ne_of_getElem_ne "road_end_" "road_start_" (toString p.1) (toString j)
        5 'e' 's' rfl rfl (by decide) heq
    · intro heq
      exact hne p hp hls (append_left_cancel_toString "road_end_" p.1 j heq)
  · exact ⟨append_ne_of_getElem_ne "tree_" "road_start_" (toString p.1) (toString j)
        0 't' 'r' rfl rfl (by decide),
      append_ne_of_getElem_ne "tree_" "road_end_" (toString p.1) (toString j)
        0 't' 'r' rfl rfl (by decide)⟩
  · exact ⟨append_ne_of_getElem_ne "transit_" "road_start_" (toString p.1) (toString j)
        0 't' 'r' rfl rfl (by decide),
      append_ne_of_getElem_ne "transit_" "road_end_" (toString p.1) (toString j)
        0 't' 'r' rfl rfl (by decide)⟩

/-- Witness for C10 on the demo data at road row 1 (a MultiLineString),
instantiated at the subgraph's neighborhood node. -/
theorem non_linestring_road_no_nodes_witness :
    (neighborhoodNode demoRow).vertex ≠ "road_start_" ++ toString 1
    ∧ (neighborhoodNode demoRow).vertex ≠ "road_end_" ++ toString 1 :=
  non_linestring_road_no_nodes demoLib demoData demoRow 1 demoRoad2 rfl (by decide)
    (neighborhoodNode demoRow)
    (by unfold buildNodes
        dsimp only
        exact List.mem_append_left _ (List.mem_append_left _ (List.mem_append_left _
          (List.mem_cons_self _ _))))
